import Mathlib

/-!
Verification development for the GPMD telemetry decoding core of
`gopro-dashboard-overlay` (files `gopro_overlay/gpmd.py` and
`gopro_overlay/timeseries_process.py`).

The Python code is shallowly embedded: byte buffers are `List Nat`
(one entry per byte), Python `None` becomes `Option`, Python exceptions
become `Except String`, and numeric values (floats / ints) are modelled
as rationals.  Recursion over the self-describing binary format is
expressed with an explicit fuel parameter (the Python recursion is
bounded by the buffer length); every theorem about a parse outcome is
stated for arbitrary fuel, conditioned on the result at that fuel.
-/

namespace GPMD

/-- One byte of the buffer, read like Python's `data[i]`; only used at
indices that the surrounding bounds checks have already validated. -/
def readByte (data : List Nat) (i : Nat) : Nat := data.getD i 0

/-- Big-endian 16-bit read, the `H` field of `struct.Struct('>4sBBH')`. -/
def readU16 (data : List Nat) (i : Nat) : Nat :=
  256 * readByte data i + readByte data (i + 1)

/-- The four-character code at `offset`, as decoded by `fourcc.decode()`
(for the ASCII codes that occur in the format this is byte-per-char). -/
def fourccAt (data : List Nat) (offset : Nat) : String :=
  String.mk [Char.ofNat (readByte data offset),
             Char.ofNat (readByte data (offset + 1)),
             Char.ofNat (readByte data (offset + 2)),
             Char.ofNat (readByte data (offset + 3))]

/-- While loop of `GPMDParser.extend`: increment `i` until it is a
multiple of 4 (the only call site uses the default `base=4`). -/
def extendGo (i : Nat) : Nat :=
  if i % 4 = 0 then i else extendGo (i + 1)
termination_by (4 - i % 4) % 4
decreasing_by
  simp_wf
  omega

/-- Padded length of an `n`-byte payload, `GPMDParser.extend(n)`. -/
def extend (n : Nat) : Nat := extendGo n

/-- A parsed record: `GPMDItem` or `GPMDContainer` from `gpmd.py`. -/
inductive Rec where
  | item (fourcc : String) (typeCharCode : Nat) (rep : Nat)
      (paddedLength : Nat) (rawdata : List Nat)
  | container (fourcc : String) (sizeField : Nat) (rep : Nat)
      (paddedLength : Nat) (children : List Rec)

/-- Encoded size, `GPMDItem.size` / `GPMDContainer.size` (`GPMDStruct.size` is 8).
In the Python, `GPMDItem.size` tests `self._type != 0`, but `_type`
holds `chr(type_char_code)` — a string — so the test is always true and
every item's size is `8 + padded_length`, same as a container's. -/
def Rec.size : Rec → Nat
  | .item _ _ _ pl _ => 8 + pl
  | .container _ _ _ pl _ => 8 + pl

mutual

/-- Decode one record, `GPMDParser.from_array(data, offset)`.  The
8-byte header is `'>4sBBH'`; `struct.unpack_from` raises `struct.error`
when fewer than 8 bytes remain, and the `'>{padded_length}s'` unpack of
an item payload raises when the padded payload overruns the buffer.
For a container (`type_char_code == 0`; the Python guard also checks
`padded_length >= 0`, vacuous here) the child region is the Python
slice `data[offset+8 : offset+8+padded_length]`, which CLAMPS to the
end of the buffer, and children are parsed from it until exhausted. -/
def from_array (fuel : Nat) (data : List Nat) (offset : Nat) :
    Except String Rec :=
  match fuel with
  | 0 => .error ("out of fuel")
  | fuel + 1 =>
    if data.length < offset + 8 then
      .error ("struct.error: unpack_from requires at least 8 bytes")
    else
      let fourcc := fourccAt data offset
      let typeCharCode := readByte data (offset + 4)
      let sizeField := readByte data (offset + 5)
      let rep := readU16 data (offset + 6)
      let padded_length := extend (sizeField * rep)
      if typeCharCode ≠ 0 then
        if data.length < offset + 8 + padded_length then
          .error ("struct.error: unpack_from requires a larger buffer")
        else
          .ok (.item fourcc typeCharCode rep padded_length
                ((data.drop (offset + 8)).take padded_length))
      else
        match parseChildren fuel ((data.drop (offset + 8)).take padded_length) 0 with
        | .error e => .error e
        | .ok children => .ok (.container fourcc sizeField rep padded_length children)

/-- The child-parsing while loop inside `from_array`'s container branch:
`while bob_offset < len(child_data)` parse a child and advance by its
encoded size. -/
def parseChildren (fuel : Nat) (data : List Nat) (offset : Nat) :
    Except String (List Rec) :=
  match fuel with
  | 0 => .error ("out of fuel")
  | fuel + 1 =>
    if offset < data.length then
      match from_array fuel data offset with
      | .error e => .error e
      | .ok child =>
        match parseChildren fuel data (offset + child.size) with
        | .error e => .error e
        | .ok rest => .ok (child :: rest)
    else .ok []

end

/-- Top-level loop of `GPMDParser.items()`, starting at offset 0 and
advancing by each decoded record's total encoded size while the offset
is inside the buffer. -/
def itemsGo (fuel : Nat) (data : List Nat) (offset : Nat) :
    Except String (List Rec) :=
  match fuel with
  | 0 => .error ("out of fuel")
  | fuel + 1 =>
    if offset < data.length then
      match from_array (fuel + 1) data offset with
      | .error e => .error e
      | .ok item =>
        match itemsGo fuel data (offset + item.size) with
        | .error e => .error e
        | .ok rest => .ok (item :: rest)
    else .ok []

/-- Top-level record sequence of a buffer. -/
def items (data : List Nat) : Except String (List Rec) :=
  itemsGo (data.length + 1) data 0

/-! ## Type interpreter registry -/

/-- The `GPSFix` enum of `gpmd.py`. -/
inductive GPSFix where
  | NO
  | UNKNOWN
  | LOCK_2D
  | LOCK_3D
deriving DecidableEq, Repr

/-- Python's `str()` of a `GPSFix` member, as interpolated into
f-strings (`f"... {c.fix} ..."`). -/
def fixRepr : GPSFix → String
  | .NO => "GPSFix.NO"
  | .UNKNOWN => "GPSFix.UNKNOWN"
  | .LOCK_2D => "GPSFix.LOCK_2D"
  | .LOCK_3D => "GPSFix.LOCK_3D"

/-- The `interpreters` dict of `gpmd.py`: its keys, each paired with
the name of the interpreter function it maps to.  The decoder bodies
are embedded separately, in typed form, where the claims about stream
reconstruction consume their outputs. -/
def interpreters : List (String × String) :=
  [("ACCL", "xyz"), ("DEVC", "device_marker"), ("DVNM", "string"),
   ("GPS5", "gps5"), ("GPSF", "gps_lock"), ("GPSP", "gps_precision"),
   ("GPSU", "timestamp"), ("GYRO", "xyz"), ("MWET", "list"),
   ("SCAL", "list"), ("SIUN", "string"), ("STMP", "atom"),
   ("TMPC", "atom"), ("STNM", "string"), ("STRM", "stream_marker"),
   ("TSMP", "atom"), ("TICK", "atom"), ("TOCK", "atom"),
   ("WNDM", "list")]

/-- Registry lookup of `interpret_item`: look the fourcc up in the registry; a missing key
raises `KeyError(f"No interpreter is configured for packets of type
...")` naming the offending code. -/
def interpret_item (fourcc : String) : Except String String :=
  match interpreters.lookup fourcc with
  | some f => .ok f
  | none => .error ("No interpreter is configured for packets of type " ++ fourcc)

/-! ## Stream reconstruction: the GPS5 stream visitor -/

/-- One 5-tuple positioning reading, namedtuple
`GPS5 = (lat, lon, alt, speed, speed3d)`. -/
structure GPS5q where
  lat : ℚ
  lon : ℚ
  alt : ℚ
  speed : ℚ
  speed3d : ℚ
deriving DecidableEq, Repr

/-- A child record of a positioning stream, already interpreted: each
`vi_XXXX` method of `GPS5StreamVisitor` stores `interpret_item(item)`,
whose type is fixed by the registry entry for that fourcc.  `other`
stands for any record whose fourcc has no matching `vi_` method on the
visitor — `GPMDItem.accept`'s `hasattr` test fails for it. -/
inductive SItem where
  | TSMP (v : ℚ)
  | GPSU (t : ℚ)
  | GPSF (f : GPSFix)
  | GPSP (d : ℚ)
  | SCAL (l : List ℚ)
  | GPS5 (pts : List GPS5q)
  | other (code : String)

/-- The fourcc a stream child dispatches on. -/
def SItem.fourcc : SItem → String
  | .TSMP _ => "TSMP"
  | .GPSU _ => "GPSU"
  | .GPSF _ => "GPSF"
  | .GPSP _ => "GPSP"
  | .SCAL _ => "SCAL"
  | .GPS5 _ => "GPS5"
  | .other c => c

/-- The mutable state of `GPS5StreamVisitor`.  `__init__` assigns
`None` to `_samples`, `_basetime`, `_fix`, `_scale` and `_points`, but
never to `_dop`: here `dop = none` means the `_dop` attribute has never
been assigned at all (only `vi_GPSP` assigns it). -/
structure GPS5State where
  samples : Option ℚ
  basetime : Option ℚ
  fix : Option GPSFix
  dop : Option ℚ
  scale : Option (List ℚ)
  points : Option (List GPS5q)

/-- The state after `__init__`. -/
def gps5Init : GPS5State :=
  { samples := none, basetime := none, fix := none, dop := none,
    scale := none, points := none }

/-- Dispatch of `GPMDItem.accept` into `GPS5StreamVisitor`: each matched
`vi_XXXX` stores the interpreted value; a fourcc with no matching
method is skipped (the `hasattr` test fails and `accept` does
nothing). -/
def gps5_step (s : GPS5State) : SItem → GPS5State
  | .TSMP v => { s with samples := some v }
  | .GPSU t => { s with basetime := some t }
  | .GPSF f => { s with fix := some f }
  | .GPSP d => { s with dop := some d }
  | .SCAL l => { s with scale := some l }
  | .GPS5 p => { s with points := some p }
  | .other _ => s

/-- The completed group handed to `on_end`, `GPS5Components`. -/
structure GPS5Components where
  samples : Option ℚ
  basetime : Option ℚ
  fix : Option GPSFix
  dop : ℚ
  scale : Option (List ℚ)
  points : Option (List GPS5q)

/-- Completion step `GPS5StreamVisitor.v_end`: builds `GPS5Components` from the state.
Reading `self._dop` when no `GPSP` child ever arrived raises
`AttributeError`, because `__init__` never initializes `_dop`. -/
def gps5_v_end (s : GPS5State) : Except String GPS5Components :=
  match s.dop with
  | none => .error ("AttributeError: GPS5StreamVisitor has no attribute _dop")
  | some d =>
    .ok { samples := s.samples, basetime := s.basetime, fix := s.fix,
          dop := d, scale := s.scale, points := s.points }

/-- Visit all children of one positioning stream in order, then
complete it (`accept` loop over `self.items` followed by `v_end`). -/
def gps5_run (its : List SItem) : Except String GPS5Components :=
  gps5_v_end (its.foldl gps5_step gps5Init)

/-- Stream selection `GPSVisitor.vic_STRM`: a stream container is reconstructed as a
positioning group only when `"GPS5"` is in its child fourcc set;
otherwise no visitor is returned and the stream is ignored. -/
def vic_STRM_run (its : List SItem) : Option (Except String GPS5Components) :=
  if ("GPS5") ∈ its.map SItem.fourcc then some (gps5_run its) else none

/-! ## Quality filter -/

/-- Python's f-string rendering of `c.basetime` (a datetime or `None`),
with the timestamp modelled as a rational. -/
def pyOptTimeRepr : Option ℚ → String
  | none => "None"
  | some q => toString q

/-- Rendering of `c.fix` (an `Option`-valued field) in an f-string. -/
def fixOptRepr : Option GPSFix → String
  | none => "None"
  | some f => fixRepr f

/-- Report wrapper `do_report` in `gps_filters`: wraps a per-filter message `m` into
the single line sent to the caller-supplied sink. -/
def do_report_msg (t : Nat) (basetime : Option ℚ) (m : String) : String :=
  "Packet " ++ toString t ++ ", GPS Time " ++ pyOptTimeRepr basetime ++
    " Discarding GPS Location: " ++ m

/-- Filter chain `drop_item` of `gps_filters(report, dop_max)`: scan the filter list
in order; the first predicate that matches reports its message and
returns `True` (here: `some message`); if none matches the function
falls through returning `None` (here: `none`, the group is kept). -/
def gps_drop_item (dop_max : ℚ) (t : Nat) (c : GPS5Components) : Option String :=
  if c.basetime = none then
    some (do_report_msg t c.basetime ("Unknown GPS Time"))
  else if c.fix = none then
    some (do_report_msg t c.basetime ("Unknown GPS Fix Status"))
  else if c.fix = some GPSFix.NO ∨ c.fix = some GPSFix.UNKNOWN then
    some (do_report_msg t c.basetime
      ("GPS Not Locked (Status = " ++ fixOptRepr c.fix ++ ")"))
  else if dop_max < c.dop then
    some (do_report_msg t c.basetime
      ("DOP Out of Range. " ++ toString c.dop ++ " > " ++ toString dop_max))
  else if c.scale = none then
    some (do_report_msg t c.basetime ("Unknown Item Scale"))
  else
    none

/-- The `dop_max` wired in by `timeseries_from_data`. -/
def default_dop_max : ℚ := 6

/-! ## The GPS entry converter -/

/-- Position pair `Point(lat, lon)` as constructed by the converter. -/
structure Pointq where
  lat : ℚ
  lon : ℚ
deriving DecidableEq, Repr

/-- One `Entry` as constructed by `GPS5EntryConverter.convert` (the
unit wrappers `units.Quantity(x, u)` carry the value `x`). -/
structure Entryq where
  time : ℚ
  dop : ℚ
  packet : Nat
  packet_index : Nat
  point : Pointq
  speed : ℚ
  alt : ℚ
deriving DecidableEq, Repr

/-- Component-wise scaling of one raw 5-tuple:
`zip(point._asdict().values(), components.scale)` followed by
`GPS5._make(scaled)`; `_make` raises `TypeError` unless exactly five
scaled components come out of the (truncating) `zip`. -/
def scaled_gps5 (sc : List ℚ) (p : GPS5q) : Option GPS5q :=
  match List.zipWith (fun x y => x / y) [p.lat, p.lon, p.alt, p.speed, p.speed3d] sc with
  | [a, b, c, d, e] => some ⟨a, b, c, d, e⟩
  | _ => none

/-- The `Entry` built for the point at `index`:
`basetime + timedelta(seconds=index * (1.0 / len(points)))` plus the
scaled fields. -/
def mkEntry (counter : Nat) (T : ℚ) (N : Nat) (dop : ℚ) (index : Nat)
    (sp : GPS5q) : Entryq :=
  { time := T + index * (1 / (N : ℚ)), dop := dop, packet := counter,
    packet_index := index, point := ⟨sp.lat, sp.lon⟩,
    speed := sp.speed, alt := sp.alt }

/-- The `for index, point in enumerate(components.points)` loop of
`convert`: each iteration scales the point (reading `components.scale`)
and keys it off `components.basetime`; a `None` scale or basetime would
raise `TypeError` at first use inside the loop. -/
def convert_loop (counter : Nat) (c : GPS5Components) (N : Nat) :
    Nat → List GPS5q → Except String (List Entryq)
  | _, [] => .ok []
  | i, p :: rest =>
    match c.scale with
    | none => .error ("TypeError: zip argument is not iterable")
    | some sc =>
      match scaled_gps5 sc p with
      | none => .error ("TypeError: GPS5 expected 5 arguments")
      | some sp =>
        match c.basetime with
        | none => .error ("TypeError: unsupported operand for NoneType and timedelta")
        | some T =>
          match convert_loop counter c N (i + 1) rest with
          | .error e => .error e
          | .ok es => .ok (mkEntry counter T N c.dop i sp :: es)

/-- Conversion `GPS5EntryConverter.convert`: when `drop_item` matches, nothing is
emitted; otherwise one `Entry` per raw point, in order.  The returned
list is the sequence of `on_item` calls. -/
def convert (dop_max : ℚ) (counter : Nat) (c : GPS5Components) :
    Except String (List Entryq) :=
  match gps_drop_item dop_max counter c with
  | some _ => .ok []
  | none =>
    match c.points with
    | none => .error ("TypeError: NoneType is not iterable")
    | some pts => convert_loop counter c pts.length 0 pts

/-! ## Stream reconstruction: the 3-axis (ACCL/GYRO) visitor -/

/-- One raw 3-axis reading, namedtuple `XYZ = (y, x, z)`. -/
structure XYZq where
  y : ℚ
  x : ℚ
  z : ℚ
deriving DecidableEq, Repr

/-- Sample `Point3(x, y, z)` as emitted by the 3-axis visitor. -/
structure Point3q where
  x : ℚ
  y : ℚ
  z : ℚ
deriving DecidableEq, Repr

/-- One iteration of `XYZStreamVisitor.v_end`'s loop: the components
are `point._asdict().values()` in field order `y, x, z`; a length-1
scale list is broadcast (`itertools.repeat`) across the components;
`zip` truncates to the shorter list and `XYZ._make` raises `TypeError`
unless exactly three scaled values result.  The emitted sample is
`Point3(scaled_point.x, scaled_point.y, scaled_point.z)`. -/
def xyz_scale_one (scale : List ℚ) (p : XYZq) : Option Point3q :=
  let components := [p.y, p.x, p.z]
  let divisors := if scale.length = 1 ∧ 1 < components.length
                  then List.replicate components.length (scale.getD 0 0)
                  else scale
  match List.zipWith (fun x y => x / y) components divisors with
  | [sy, sx, sz] => some ⟨sx, sy, sz⟩
  | _ => none

/-- Completion step `XYZStreamVisitor.v_end`: one `on_item` call per raw
tuple, in order; a scaling failure raises out of the loop. -/
def xyz_v_end (scale : List ℚ) : List XYZq → Option (List Point3q)
  | [] => some []
  | p :: rest =>
    match xyz_scale_one scale p with
    | none => none
    | some q =>
      match xyz_v_end scale rest with
      | none => none
      | some qs => some (q :: qs)

/-! ## Derivation functions (`timeseries_process.py`) -/

/-- The closure state of `process_ses` (`forecast` list, `previous`
cell) threaded through successive calls of one pass.  `previous.getD 0`
models `previous[0]`; when `forecast` is non-empty the `finally` block
of the preceding call has always set `previous`, so the default is
never consulted on runs that start from the initial state. -/
def ses_call (alpha : ℚ) : List ℚ → Option ℚ → List ℚ → List ℚ
  | _, _, [] => []
  | forecast, previous, current :: rest =>
    if forecast.isEmpty then
      current :: ses_call alpha (forecast ++ [current]) (some current) rest
    else
      let predicted := alpha * previous.getD 0 + (1 - alpha) * forecast.getLastD 0
      predicted :: ses_call alpha (forecast ++ [predicted]) (some current) rest

/-- Outputs of `process_ses` over one pass: the list of smoothed values
returned for the inputs, in order, starting from the freshly
initialized closure state (`forecast = []`, `previous = [None]`). -/
def process_ses (alpha : ℚ) (xs : List ℚ) : List ℚ :=
  ses_call alpha [] none xs

/-- Modelled from the spec (§4.5 Derivation algorithms): the recurrence
`forecast[0] = x[0]`, `forecast[i] = α·x[i-1] + (1-α)·forecast[i-1]`,
to be compared with the implementation `process_ses`.  Helper carrying
the previous input and previous forecast. -/
def sesSpecGo (alpha : ℚ) (xprev fprev : ℚ) : List ℚ → List ℚ
  | [] => []
  | x :: rest =>
    let f := alpha * xprev + (1 - alpha) * fprev
    f :: sesSpecGo alpha x f rest

/-- Modelled from the spec (§4.5 Derivation algorithms): the full
smoothed sequence of the recurrence above. -/
def sesSpec (alpha : ℚ) : List ℚ → List ℚ
  | [] => []
  | x :: rest => x :: sesSpecGo alpha x x rest

/-- Course-over-ground normalization of `calculate_speeds`:
`raw_cog = 0 + raw_azi if raw_azi >= 0 else 360 + raw_azi`, applied to
the azimuth `inverse['azi1']` returned by the (external) WGS-84
geodesic inverse. -/
def raw_cog (raw_azi : ℚ) : ℚ :=
  if 0 ≤ raw_azi then 0 + raw_azi else 360 + raw_azi

/-- The fields of the two entries that `calculate_gradient`'s closure
reads: the optional altitude and optional odometer quantities. -/
structure DeltaEntry where
  alt : Option ℚ
  odo : Option ℚ
deriving DecidableEq, Repr

/-- Python truthiness of an optional quantity: `None` is falsy, and a
pint `Quantity` is falsy exactly when its magnitude is zero. -/
def truthyQ : Option ℚ → Bool
  | none => false
  | some q => if q = 0 then false else true

/-- Gradient closure `accept(a, b, c)` of `calculate_gradient`: a missing altitude on
either side returns the field set `grad = 0.0`; otherwise the gradient
is computed only when both odometers are truthy and the delta
`b.odo - a.odo` is truthy and of positive magnitude, and a fall-through
returns `None` (no field produced). -/
def calculate_gradient (a b : DeltaEntry) : Option ℚ :=
  if a.alt = none ∨ b.alt = none then some 0
  else
    let gain := b.alt.getD 0 - a.alt.getD 0
    if truthyQ a.odo && truthyQ b.odo then
      let dist := b.odo.getD 0 - a.odo.getD 0
      if dist ≠ 0 ∧ 0 < dist then some ((gain / dist) * 100)
      else none
    else none

/-! ## Helper lemmas -/

theorem ses_call_nonempty (alpha prev : ℚ) (xs : List ℚ) :
    ∀ fl : List ℚ, fl ≠ [] →
      ses_call alpha fl (some prev) xs = sesSpecGo alpha prev (fl.getLastD 0) xs := by
  induction xs generalizing prev with
  | nil => intro fl _; rfl
  | cons x rest ih =>
    intro fl hfl
    have hne : fl.isEmpty = false := by
      cases fl with
      | nil => exact absurd rfl hfl
      | cons a l => rfl
    simp only [ses_call, hne, Bool.false_eq_true, if_false, Option.getD_some,
      sesSpecGo]
    have h2 : (fl ++ [alpha * prev + (1 - alpha) * fl.getLastD 0]).getLastD 0 =
        alpha * prev + (1 - alpha) * fl.getLastD 0 := by
      simp [List.getLastD_concat]
    rw [ih x (fl ++ [alpha * prev + (1 - alpha) * fl.getLastD 0]) (by simp), h2]

theorem process_ses_eq_sesSpec (alpha : ℚ) (xs : List ℚ) :
    process_ses alpha xs = sesSpec alpha xs := by
  cases xs with
  | nil => rfl
  | cons x rest =>
    simp only [process_ses, ses_call, List.isEmpty_nil, if_true, List.nil_append,
      sesSpec]
    rw [ses_call_nonempty alpha x rest [x] (by simp)]
    rfl


/-- A zero entry used as the default of `List.getD` in statements. -/
def entry0 : Entryq :=
  { time := 0, dop := 0, packet := 0, packet_index := 0, point := ⟨0, 0⟩,
    speed := 0, alt := 0 }

theorem scaled_gps5_len5 (sc : List ℚ) (h : sc.length = 5) (p : GPS5q) :
    scaled_gps5 sc p =
      some ⟨p.lat / sc.getD 0 0, p.lon / sc.getD 1 0, p.alt / sc.getD 2 0,
        p.speed / sc.getD 3 0, p.speed3d / sc.getD 4 0⟩ := by
  cases sc with
  | nil => simp at h
  | cons s0 t0 =>
    cases t0 with
    | nil => simp at h
    | cons s1 t1 =>
      cases t1 with
      | nil => simp at h
      | cons s2 t2 =>
        cases t2 with
        | nil => simp at h
        | cons s3 t3 =>
          cases t3 with
          | nil => simp at h
          | cons s4 t4 =>
            cases t4 with
            | nil => rfl
            | cons s5 t5 => simp at h

/-- The entries produced by an accepted group's conversion loop, in
closed form. -/
def convert_pure (counter : Nat) (T : ℚ) (N : Nat) (dop : ℚ) (sc : List ℚ) :
    Nat → List GPS5q → List Entryq
  | _, [] => []
  | i, p :: rest =>
    mkEntry counter T N dop i
      ⟨p.lat / sc.getD 0 0, p.lon / sc.getD 1 0, p.alt / sc.getD 2 0,
        p.speed / sc.getD 3 0, p.speed3d / sc.getD 4 0⟩ ::
      convert_pure counter T N dop sc (i + 1) rest

theorem convert_loop_eq (counter : Nat) (c : GPS5Components) (N : Nat)
    (T : ℚ) (sc : List ℚ) (hb : c.basetime = some T) (hsc : c.scale = some sc)
    (hlen : sc.length = 5) :
    ∀ (pts : List GPS5q) (i : Nat),
      convert_loop counter c N i pts =
        .ok (convert_pure counter T N c.dop sc i pts) := by
  intro pts
  induction pts with
  | nil => intro i; rfl
  | cons p rest ih =>
    intro i
    simp [convert_loop, hsc, hb, scaled_gps5_len5 sc hlen p, ih, convert_pure]

theorem convert_pure_length (counter : Nat) (T : ℚ) (N : Nat) (dop : ℚ)
    (sc : List ℚ) : ∀ (pts : List GPS5q) (i : Nat),
      (convert_pure counter T N dop sc i pts).length = pts.length := by
  intro pts
  induction pts with
  | nil => intro i; rfl
  | cons p rest ih => intro i; simp [convert_pure, ih]

theorem convert_pure_time (counter : Nat) (T : ℚ) (N : Nat) (dop : ℚ)
    (sc : List ℚ) : ∀ (pts : List GPS5q) (i j : Nat), j < pts.length →
      ((convert_pure counter T N dop sc i pts).getD j entry0).time =
        T + ((i : ℚ) + (j : ℚ)) * (1 / (N : ℚ)) := by
  intro pts
  induction pts with
  | nil => intro i j hj; simp at hj
  | cons p rest ih =>
    intro i j hj
    cases j with
    | zero => simp [convert_pure, mkEntry]
    | succ j' =>
      have hj' : j' < rest.length := by
        simpa [Nat.succ_lt_succ_iff] using hj
      simp only [convert_pure, List.getD_cons_succ]
      rw [ih (i + 1) j' hj']
      push_cast
      ring

/-! ## Claims -/

/-- C4: for every input sequence and every α in (0,1], the smoothing
transform produced by `process_ses` computes `forecast[0] = x[0]` and
`forecast[i] = α·x[i-1] + (1-α)·forecast[i-1]`, carrying its closure
state across the calls of one pass; and on the inputs 3, 5, 9 with
α = 0.4 the smoothed values are 3.0, 3.0, 3.8. -/
theorem C4_process_ses_correct (alpha : ℚ) (xs : List ℚ)
    (_h0 : 0 < alpha) (_h1 : alpha ≤ 1) :
    process_ses alpha xs = sesSpec alpha xs ∧
      process_ses (2/5) [3, 5, 9] = [3, 3, 19/5] := by
  refine ⟨process_ses_eq_sesSpec alpha xs, ?_⟩
  norm_num [process_ses, ses_call]

/-- Witness for C4 at α = 0.4 and the documented scenario inputs. -/
theorem C4_witness :
    process_ses (2/5) [3, 5, 9] = sesSpec (2/5) [3, 5, 9] ∧
      process_ses (2/5) [3, 5, 9] = [3, 3, 19/5] :=
  ⟨(C4_process_ses_correct (2/5) [3, 5, 9] (by norm_num) (by norm_num)).1,
   (C4_process_ses_correct (2/5) [3, 5, 9] (by norm_num) (by norm_num)).2⟩

/-- C6 counterexample: when the earlier entry lacks an altitude the
transform does NOT leave the gradient undefined — it produces the field
value 0.0 (`some 0`, not `none`). -/
theorem C6_counterexample :
    calculate_gradient ⟨none, some 1⟩ ⟨some 5, some 3⟩ = some 0 ∧
      (some (0 : ℚ) : Option ℚ) ≠ none := by
  exact ⟨rfl, by decide⟩

/-- C6 (amended): a missing altitude on either endpoint produces the
field value 0.0 (not an absent field); with both altitudes present, an
absent-or-zero odometer on either side produces no field; with both
odometers truthy, a non-positive delta produces no field and a strictly
positive delta produces `(gain / delta) * 100`; and whenever a field is
produced with both altitudes present, the delta was strictly positive —
so the division never divides by zero. -/
theorem C6_gradient_behaviour (a b : DeltaEntry) :
    ((a.alt = none ∨ b.alt = none) → calculate_gradient a b = some 0) ∧
    (a.alt ≠ none → b.alt ≠ none →
      ¬(truthyQ a.odo = true ∧ truthyQ b.odo = true) →
      calculate_gradient a b = none) ∧
    (∀ ao bo, a.alt ≠ none → b.alt ≠ none →
      a.odo = some ao → ao ≠ 0 → b.odo = some bo → bo ≠ 0 →
      ((bo - ao ≤ 0 → calculate_gradient a b = none) ∧
       (0 < bo - ao → calculate_gradient a b =
          some (((b.alt.getD 0 - a.alt.getD 0) / (bo - ao)) * 100)))) ∧
    (∀ g, a.alt ≠ none → b.alt ≠ none → calculate_gradient a b = some g →
      ∃ ao bo, a.odo = some ao ∧ b.odo = some bo ∧ 0 < bo - ao ∧
        g = ((b.alt.getD 0 - a.alt.getD 0) / (bo - ao)) * 100) := by
  refine ⟨?_, ?_, ?_, ?_⟩
  · intro h
    simp [calculate_gradient, h]
  · intro ha hb hodo
    have hcond : ¬(a.alt = none ∨ b.alt = none) := by
      intro h; cases h with
      | inl h => exact ha h
      | inr h => exact hb h
    simp only [calculate_gradient, if_neg hcond]
    have : (truthyQ a.odo && truthyQ b.odo) = false := by
      cases h1 : truthyQ a.odo <;> cases h2 : truthyQ b.odo <;> simp_all
    simp [this]
  · intro ao bo ha hb hao haone hbo hbone
    have hcond : ¬(a.alt = none ∨ b.alt = none) := by
      intro h; cases h with
      | inl h => exact ha h
      | inr h => exact hb h
    have hta : truthyQ (some ao) = true := by simp [truthyQ, haone]
    have htb : truthyQ (some bo) = true := by simp [truthyQ, hbone]
    constructor
    · intro hle
      have hnd : ¬(bo - ao ≠ 0 ∧ 0 < bo - ao) := by
        intro ⟨_, hlt⟩; linarith
      simp only [calculate_gradient, if_neg hcond, hao, hbo, hta, htb,
        Bool.and_self, if_true, Option.getD_some, if_neg hnd]
    · intro hlt
      have hd : bo - ao ≠ 0 ∧ 0 < bo - ao := ⟨by linarith, hlt⟩
      simp [calculate_gradient, if_neg hcond, hao, hbo, hta, htb, hd]
  · intro g ha hb hg
    have hcond : ¬(a.alt = none ∨ b.alt = none) := by
      intro h; cases h with
      | inl h => exact ha h
      | inr h => exact hb h
    simp only [calculate_gradient, if_neg hcond] at hg
    cases hao : a.odo with
    | none => rw [hao] at hg; simp [truthyQ] at hg
    | some ao =>
      cases hbo : b.odo with
      | none => rw [hbo] at hg; simp [truthyQ] at hg
      | some bo =>
        rw [hao, hbo] at hg
        by_cases haz : ao = 0
        · simp [truthyQ, haz] at hg
        · by_cases hbz : bo = 0
          · simp [truthyQ, hbz] at hg
          · have hta : truthyQ (some ao) = true := by simp [truthyQ, haz]
            have htb : truthyQ (some bo) = true := by simp [truthyQ, hbz]
            simp only [hta, htb, Bool.and_self, if_true, Option.getD_some] at hg
            by_cases hd : bo - ao ≠ 0 ∧ 0 < bo - ao
            · rw [if_pos hd] at hg
              exact ⟨ao, bo, rfl, rfl, hd.2, (Option.some.inj hg).symm⟩
            · rw [if_neg hd] at hg
              exact absurd hg (by simp)

/-- Witness for C6 (amended) at concrete entries: missing altitude
gives gradient 0.0, and truthy odometers with positive delta give the
computed ratio. -/
theorem C6_witness :
    calculate_gradient ⟨none, some 1⟩ ⟨some 5, some 3⟩ = some 0 ∧
      calculate_gradient ⟨some 10, some 2⟩ ⟨some 14, some 10⟩ = some 50 := by
  constructor
  · exact (C6_gradient_behaviour ⟨none, some 1⟩ ⟨some 5, some 3⟩).1 (Or.inl rfl)
  · have h := ((C6_gradient_behaviour ⟨some 10, some 2⟩ ⟨some 14, some 10⟩).2.2.1
      2 10 (by simp) (by simp) rfl (by norm_num) rfl (by norm_num)).2 (by norm_num)
    rw [h]
    norm_num

/-- C3: the quality filter evaluates its rejection predicates in the
fixed order — missing base timestamp, missing fix, fix no-fix/unknown,
dop above the ceiling, missing scale — the first match wins and yields
exactly the report of that predicate (the no-fix report contains
"Not Locked"); a group rejected by any predicate contributes zero
entries through the converter; and the pipeline's default ceiling is
6.0. -/
theorem C3_filter_order (dop_max : ℚ) (t : Nat) (c : GPS5Components) :
    (c.basetime = none →
      gps_drop_item dop_max t c =
        some (do_report_msg t c.basetime ("Unknown GPS Time"))) ∧
    (c.basetime ≠ none → c.fix = none →
      gps_drop_item dop_max t c =
        some (do_report_msg t c.basetime ("Unknown GPS Fix Status"))) ∧
    (∀ f, c.basetime ≠ none → c.fix = some f →
      (f = GPSFix.NO ∨ f = GPSFix.UNKNOWN) →
      gps_drop_item dop_max t c =
        some (do_report_msg t c.basetime
          ("GPS Not Locked (Status = " ++ fixRepr f ++ ")")) ∧
      ∃ pre post,
        do_report_msg t c.basetime
            ("GPS Not Locked (Status = " ++ fixRepr f ++ ")") =
          pre ++ "Not Locked" ++ post) ∧
    (∀ f, c.basetime ≠ none → c.fix = some f → f ≠ GPSFix.NO →
      f ≠ GPSFix.UNKNOWN → dop_max < c.dop →
      gps_drop_item dop_max t c =
        some (do_report_msg t c.basetime
          ("DOP Out of Range. " ++ toString c.dop ++ " > " ++ toString dop_max))) ∧
    (∀ f, c.basetime ≠ none → c.fix = some f → f ≠ GPSFix.NO →
      f ≠ GPSFix.UNKNOWN → ¬ dop_max < c.dop → c.scale = none →
      gps_drop_item dop_max t c =
        some (do_report_msg t c.basetime ("Unknown Item Scale"))) ∧
    (∀ f, c.basetime ≠ none → c.fix = some f → f ≠ GPSFix.NO →
      f ≠ GPSFix.UNKNOWN → ¬ dop_max < c.dop → c.scale ≠ none →
      gps_drop_item dop_max t c = none) ∧
    (∀ m, gps_drop_item dop_max t c = some m →
      convert dop_max t c = .ok []) ∧
    default_dop_max = 6 := by
  refine ⟨?_, ?_, ?_, ?_, ?_, ?_, ?_, rfl⟩
  · intro h1
    unfold gps_drop_item
    rw [if_pos h1]
  · intro h1 h2
    unfold gps_drop_item
    rw [if_neg h1, if_pos h2]
  · intro f h1 hf hnl
    have h2 : ¬ c.fix = none := by rw [hf]; simp
    have h3 : c.fix = some GPSFix.NO ∨ c.fix = some GPSFix.UNKNOWN := by
      cases hnl with
      | inl h => exact Or.inl (by rw [hf, h])
      | inr h => exact Or.inr (by rw [hf, h])
    constructor
    · unfold gps_drop_item
      rw [if_neg h1, if_neg h2, if_pos h3, hf]
      rfl
    · have l1 : "GPS " ++ "Not Locked" = "GPS Not Locked" := rfl
      have l2 : "GPS Not Locked" ++ " (Status = " = "GPS Not Locked (Status = " := rfl
      refine ⟨"Packet " ++ toString t ++ ", GPS Time " ++
        pyOptTimeRepr c.basetime ++ " Discarding GPS Location: " ++ "GPS ",
        " (Status = " ++ fixRepr f ++ ")", ?_⟩
      unfold do_report_msg
      rw [String.append_assoc ("Packet " ++ toString t ++ ", GPS Time " ++
            pyOptTimeRepr c.basetime ++ " Discarding GPS Location: ")
          ("GPS ") ("Not Locked"), l1,
        String.append_assoc ("Packet " ++ toString t ++ ", GPS Time " ++
            pyOptTimeRepr c.basetime ++ " Discarding GPS Location: ")
          ("GPS Not Locked") (" (Status = " ++ fixRepr f ++ ")"),
        ← String.append_assoc ("GPS Not Locked") (" (Status = " ++ fixRepr f) (")"),
        ← String.append_assoc ("GPS Not Locked") (" (Status = ") (fixRepr f), l2]
  · intro f h1 hf hno hunk hdop
    have h2 : ¬ c.fix = none := by rw [hf]; simp
    have h3 : ¬ (c.fix = some GPSFix.NO ∨ c.fix = some GPSFix.UNKNOWN) := by
      rw [hf]
      intro h
      cases h with
      | inl h => exact hno (Option.some.inj h)
      | inr h => exact hunk (Option.some.inj h)
    unfold gps_drop_item
    rw [if_neg h1, if_neg h2, if_neg h3, if_pos hdop]
  · intro f h1 hf hno hunk hdop h5
    have h2 : ¬ c.fix = none := by rw [hf]; simp
    have h3 : ¬ (c.fix = some GPSFix.NO ∨ c.fix = some GPSFix.UNKNOWN) := by
      rw [hf]
      intro h
      cases h with
      | inl h => exact hno (Option.some.inj h)
      | inr h => exact hunk (Option.some.inj h)
    unfold gps_drop_item
    rw [if_neg h1, if_neg h2, if_neg h3, if_neg hdop, if_pos h5]
  · intro f h1 hf hno hunk hdop h5
    have h2 : ¬ c.fix = none := by rw [hf]; simp
    have h3 : ¬ (c.fix = some GPSFix.NO ∨ c.fix = some GPSFix.UNKNOWN) := by
      rw [hf]
      intro h
      cases h with
      | inl h => exact hno (Option.some.inj h)
      | inr h => exact hunk (Option.some.inj h)
    unfold gps_drop_item
    rw [if_neg h1, if_neg h2, if_neg h3, if_neg hdop, if_neg h5]
  · intro m hm
    simp [convert, hm]

/-- Witness for C3: a no-fix group is rejected with the "Not Locked"
reason and converts to zero entries. -/
theorem C3_witness :
    gps_drop_item 6 1
        ⟨none, some 10, some GPSFix.NO, 1, some [1, 1, 1, 1, 1], some []⟩ =
      some (do_report_msg 1 (some 10)
        ("GPS Not Locked (Status = " ++ fixRepr GPSFix.NO ++ ")")) ∧
    convert 6 1
        ⟨none, some 10, some GPSFix.NO, 1, some [1, 1, 1, 1, 1], some []⟩ =
      .ok [] := by
  have h := C3_filter_order 6 1
    ⟨none, some 10, some GPSFix.NO, 1, some [1, 1, 1, 1, 1], some []⟩
  have hdrop := (h.2.2.1 GPSFix.NO (by simp) rfl (Or.inl rfl)).1
  exact ⟨hdrop, h.2.2.2.2.2.2.1 _ hdrop⟩

/-- C5: for every accepted positioning group with base timestamp `T`
and `N` raw points, the entry for the point at index `i` is keyed at
`T + i/N` seconds: the first point exactly at `T`, and consecutive
points spaced `1/N` apart across one second. -/
theorem C5_time_assignment (dop_max : ℚ) (counter : Nat)
    (c : GPS5Components) (T : ℚ) (sc : List ℚ) (pts : List GPS5q)
    (hkeep : gps_drop_item dop_max counter c = none)
    (hb : c.basetime = some T) (hsc : c.scale = some sc)
    (hlen : sc.length = 5) (hp : c.points = some pts) :
    ∃ entries, convert dop_max counter c = .ok entries ∧
      entries.length = pts.length ∧
      (∀ i, i < pts.length →
        (entries.getD i entry0).time = T + (i : ℚ) / (pts.length : ℚ)) ∧
      (0 < pts.length → (entries.getD 0 entry0).time = T) ∧
      (∀ i, i + 1 < pts.length →
        (entries.getD (i + 1) entry0).time - (entries.getD i entry0).time =
          1 / (pts.length : ℚ)) := by
  refine ⟨convert_pure counter T pts.length c.dop sc 0 pts, ?_, ?_, ?_, ?_, ?_⟩
  · simp only [convert, hkeep, hp]
    exact convert_loop_eq counter c pts.length T sc hb hsc hlen pts 0
  · exact convert_pure_length counter T pts.length c.dop sc pts 0
  · intro i hi
    rw [convert_pure_time counter T pts.length c.dop sc pts 0 i hi]
    have hN : (pts.length : ℚ) ≠ 0 := by
      have : 0 < pts.length := Nat.lt_of_le_of_lt (Nat.zero_le i) hi
      exact_mod_cast Nat.pos_iff_ne_zero.mp this
    field_simp
  · intro hpos
    rw [convert_pure_time counter T pts.length c.dop sc pts 0 0 hpos]
    simp
  · intro i hi
    have hi' : i < pts.length := Nat.lt_of_succ_lt hi
    rw [convert_pure_time counter T pts.length c.dop sc pts 0 (i + 1) hi,
      convert_pure_time counter T pts.length c.dop sc pts 0 i hi']
    push_cast
    ring

/-- Witness for C5: an accepted two-point group based at time 10 keys
its points at 10 and 10.5. -/
theorem C5_witness :
    ∃ entries,
      convert 6 1 ⟨none, some 10, some GPSFix.LOCK_3D, 1, some [1, 1, 1, 1, 1],
          some [⟨1, 2, 3, 4, 5⟩, ⟨6, 7, 8, 9, 10⟩]⟩ = .ok entries ∧
        entries.length = 2 ∧ (entries.getD 0 entry0).time = 10 ∧
        (entries.getD 1 entry0).time = 10 + 1 / 2 := by
  obtain ⟨es, h1, h2, h3, h4, h5⟩ := C5_time_assignment 6 1
    ⟨none, some 10, some GPSFix.LOCK_3D, 1, some [1, 1, 1, 1, 1],
      some [⟨1, 2, 3, 4, 5⟩, ⟨6, 7, 8, 9, 10⟩]⟩
    10 [1, 1, 1, 1, 1] [⟨1, 2, 3, 4, 5⟩, ⟨6, 7, 8, 9, 10⟩]
    (by simp [gps_drop_item]) rfl rfl rfl rfl
  refine ⟨es, h1, h2.trans rfl, h4 (by norm_num), ?_⟩
  have := h3 1 (by norm_num)
  rw [this]
  norm_num

/-- C2 counterexample: the code `"ZZZZ"` is not in the interpreter registry,
yet a `ZZZZ` record reaching the positioning stream visitor is
silently skipped — the group completes without any decode error (with
a `GPSP` sibling supplying dop), contradicting "no stage of stream
reconstruction silently skips such a record". -/
theorem C2_counterexample :
    interpreters.lookup ("ZZZZ") = none ∧
      gps5_run [.other ("ZZZZ"), .GPSP 1] =
        .ok { samples := none, basetime := none, fix := none, dop := 1,
              scale := none, points := none } := by
  exact ⟨rfl, rfl⟩

/-- C2 (amended): `interpret_item` raises a `KeyError` whose message
contains the offending type code for every unregistered fourcc, but
visitor dispatch (`accept`'s `hasattr` test) silently skips any record
whose fourcc has no matching visitor method instead of erroring, so an
unregistered record met during stream reconstruction is dropped
without a decode error. -/
theorem C2_unregistered_code (fourcc : String)
    (h : interpreters.lookup fourcc = none) :
    (interpret_item fourcc =
        .error ("No interpreter is configured for packets of type " ++ fourcc) ∧
      ∃ pre post,
        "No interpreter is configured for packets of type " ++ fourcc =
          pre ++ fourcc ++ post) ∧
    (∀ s : GPS5State, gps5_step s (.other fourcc) = s) := by
  refine ⟨⟨?_, "No interpreter is configured for packets of type ", "", ?_⟩,
    fun s => rfl⟩
  · simp [interpret_item, h]
  · rw [String.append_empty]

/-- Witness for C2 (amended) at the concrete code `"ZZZZ"`. -/
theorem C2_witness :
    (interpret_item ("ZZZZ") =
        .error ("No interpreter is configured for packets of type " ++ "ZZZZ") ∧
      ∃ pre post,
        "No interpreter is configured for packets of type " ++ "ZZZZ" =
          pre ++ "ZZZZ" ++ post) ∧
    (∀ s : GPS5State, gps5_step s (.other ("ZZZZ")) = s) :=
  C2_unregistered_code ("ZZZZ") rfl

/-- Dop preservation: no visitor step other than `vi_GPSP` assigns
`_dop`. -/
theorem gps5_foldl_dop (its : List SItem) :
    ∀ s : GPS5State, (∀ it ∈ its, it.fourcc ≠ "GPSP") →
      (its.foldl gps5_step s).dop = s.dop := by
  induction its with
  | nil => intro s _; rfl
  | cons it rest ih =>
    intro s h
    have h1 : it.fourcc ≠ "GPSP" := h it (List.mem_cons_self it rest)
    have h2 : ∀ x ∈ rest, x.fourcc ≠ "GPSP" :=
      fun x hx => h x (List.mem_cons_of_mem it hx)
    rw [List.foldl_cons, ih _ h2]
    cases it with
    | GPSP d => exact absurd rfl h1
    | TSMP v => rfl
    | GPSU t => rfl
    | GPSF f => rfl
    | SCAL l => rfl
    | GPS5 p => rfl
    | other c => rfl

/-- C10: a positioning stream group that contains a `GPS5` record but
no `GPSP` record raises `AttributeError` when the group completes —
`v_end` reads the never-initialized `_dop` attribute — so a missing
dop aborts processing before the quality filter ever sees the group. -/
theorem C10_missing_dop (its : List SItem)
    (hg : "GPS5" ∈ its.map SItem.fourcc)
    (hnodop : ∀ it ∈ its, it.fourcc ≠ "GPSP") :
    vic_STRM_run its =
      some (.error ("AttributeError: GPS5StreamVisitor has no attribute _dop")) := by
  have hd : (its.foldl gps5_step gps5Init).dop = none := by
    rw [gps5_foldl_dop its gps5Init hnodop]
    rfl
  unfold vic_STRM_run
  rw [if_pos hg]
  simp [gps5_run, gps5_v_end, hd]

/-- Witness for C10: a stream whose single child is a `GPS5` record. -/
theorem C10_witness :
    vic_STRM_run [SItem.GPS5 []] =
      some (.error ("AttributeError: GPS5StreamVisitor has no attribute _dop")) :=
  C10_missing_dop [SItem.GPS5 []] (by simp [SItem.fourcc])
    (by intro it h; simp at h; subst h; simp [SItem.fourcc])

/-- The per-axis divisor actually applied by the 3-axis visitor:
broadcast of the single divisor when only one is supplied, otherwise
the positional divisor. -/
def xyzDiv (scale : List ℚ) (j : Nat) : ℚ :=
  if scale.length = 1 then scale.getD 0 0 else scale.getD j 0

theorem xyz_scale_one_eq (scale : List ℚ) (p : XYZq)
    (hs : scale.length = 1 ∨ 3 ≤ scale.length) :
    xyz_scale_one scale p =
      some ⟨p.x / xyzDiv scale 1, p.y / xyzDiv scale 0, p.z / xyzDiv scale 2⟩ := by
  cases hs with
  | inl h1 =>
    obtain ⟨s, rfl⟩ : ∃ s, scale = [s] := by
      cases scale with
      | nil => simp at h1
      | cons a t =>
        cases t with
        | nil => exact ⟨a, rfl⟩
        | cons b t2 => simp at h1
    simp [xyz_scale_one, xyzDiv, List.replicate]
  | inr h3 =>
    cases scale with
    | nil => simp at h3
    | cons s0 t0 =>
      cases t0 with
      | nil => simp at h3
      | cons s1 t1 =>
        cases t1 with
        | nil => simp at h3
        | cons s2 t2 =>
          have hne : ((s0 :: s1 :: s2 :: t2 : List ℚ).length = 1) = False := by
            simp
          simp [xyz_scale_one, xyzDiv, hne, List.getD]

theorem xyz_v_end_eq (scale : List ℚ)
    (hs : scale.length = 1 ∨ 3 ≤ scale.length) (points : List XYZq) :
    xyz_v_end scale points =
      some (points.map fun p =>
        ⟨p.x / xyzDiv scale 1, p.y / xyzDiv scale 0, p.z / xyzDiv scale 2⟩) := by
  induction points with
  | nil => rfl
  | cons p rest ih => simp [xyz_v_end, xyz_scale_one_eq scale p hs, ih]

/-- C9: for every completed 3-axis group (scale list of length 1,
broadcast, or covering all three axes), the visitor emits exactly one
scaled sample per raw tuple, each axis divided by its divisor, with a
single supplied divisor applied to every axis. -/
theorem C9_xyz_scaling (scale : List ℚ) (points : List XYZq)
    (hs : scale.length = 1 ∨ 3 ≤ scale.length) :
    xyz_v_end scale points =
      some (points.map fun p =>
        ⟨p.x / xyzDiv scale 1, p.y / xyzDiv scale 0, p.z / xyzDiv scale 2⟩) ∧
    (∀ out, xyz_v_end scale points = some out → out.length = points.length) ∧
    (scale.length = 1 → ∀ j, xyzDiv scale j = scale.getD 0 0) := by
  refine ⟨xyz_v_end_eq scale hs points, ?_, ?_⟩
  · intro out hout
    rw [xyz_v_end_eq scale hs points] at hout
    cases Option.some.inj hout
    simp
  · intro h1 j
    simp [xyzDiv, h1]

/-- Witness for C9: a single raw tuple with a single broadcast divisor. -/
theorem C9_witness :
    xyz_v_end [2] [⟨2, 4, 6⟩] = some [⟨2, 1, 3⟩] := by
  have h := (C9_xyz_scaling [2] [⟨2, 4, 6⟩] (Or.inl rfl)).1
  rw [h]
  norm_num [xyzDiv]

theorem extendGo_spec (i : Nat) :
    extendGo i % 4 = 0 ∧ i ≤ extendGo i ∧
      ∀ m, m % 4 = 0 → i ≤ m → extendGo i ≤ m := by
  induction i using extendGo.induct with
  | case1 i h =>
    rw [extendGo, if_pos h]
    exact ⟨h, Nat.le_refl _, fun m _ h2 => h2⟩
  | case2 i h ih =>
    rw [extendGo, if_neg h]
    obtain ⟨ih1, ih2, ih3⟩ := ih
    refine ⟨ih1, Nat.le_trans (Nat.le_succ i) ih2, ?_⟩
    intro m hm him
    apply ih3 m hm
    omega

/-- C7: `extend n` is the least multiple of 4 that is at least `n`;
every non-container record decoded by `from_array` has padded length
`extend (size × repeat)` and total encoded size `8 + extend (size ×
repeat)`; and the top-level sequence starts at offset 0 and is produced
by repeatedly decoding one record and advancing the offset by its total
encoded size until the buffer is exhausted. -/
theorem C7_sizes_and_sequence :
    (∀ n : Nat, extend n % 4 = 0 ∧ n ≤ extend n ∧
      ∀ m, m % 4 = 0 → n ≤ m → extend n ≤ m) ∧
    (∀ fuel data offset f t rep pl raw,
      from_array fuel data offset = .ok (.item f t rep pl raw) →
      rep = readU16 data (offset + 6) ∧
      pl = extend (readByte data (offset + 5) * rep) ∧
      (Rec.item f t rep pl raw).size = 8 + extend (readByte data (offset + 5) * rep)) ∧
    (∀ fuel data offset, data.length ≤ offset →
      itemsGo (fuel + 1) data offset = .ok []) ∧
    (∀ fuel data offset r rest,
      itemsGo (fuel + 1) data offset = .ok (r :: rest) →
      offset < data.length ∧ from_array (fuel + 1) data offset = .ok r ∧
      itemsGo fuel data (offset + r.size) = .ok rest) ∧
    (∀ data, items data = itemsGo (data.length + 1) data 0) := by
  refine ⟨fun n => extendGo_spec n, ?_, ?_, ?_, fun _ => rfl⟩
  · intro fuel data offset f t rep pl raw h
    match fuel with
    | 0 => simp [from_array] at h
    | n + 1 =>
      simp only [from_array] at h
      split at h
      · simp at h
      · split at h
        · split at h
          · simp at h
          · simp only [Except.ok.injEq, Rec.item.injEq] at h
            obtain ⟨hf, ht, hrep, hpl, hraw⟩ := h
            subst hrep
            subst hpl
            exact ⟨rfl, rfl, rfl⟩
        · split at h
          · simp at h
          · simp at h
  · intro fuel data offset hle
    simp only [itemsGo]
    rw [if_neg (Nat.not_lt.mpr hle)]
  · intro fuel data offset r rest h
    simp only [itemsGo] at h
    split at h
    · rename_i hlt
      split at h
      · simp at h
      · rename_i item hfa
        split at h
        · simp at h
        · rename_i rest' hrest
          simp only [Except.ok.injEq, List.cons.injEq] at h
          obtain ⟨h1, h2⟩ := h
          subst h1
          subst h2
          exact ⟨hlt, hfa, hrest⟩
    · simp at h

/-- Witness for C7: a 12-byte buffer holding exactly one non-container
record (type 1, size 2, repeat 1, payload padded from 2 to 4 bytes). -/
theorem C7_witness :
    0 < ([65, 66, 67, 68, 1, 2, 0, 1, 7, 7, 0, 0] : List Nat).length ∧
    from_array (12 + 1) [65, 66, 67, 68, 1, 2, 0, 1, 7, 7, 0, 0] 0 =
      .ok (.item ("ABCD") 1 1 4 [7, 7, 0, 0]) ∧
    itemsGo 12 [65, 66, 67, 68, 1, 2, 0, 1, 7, 7, 0, 0]
        (0 + (Rec.item ("ABCD") 1 1 4 [7, 7, 0, 0]).size) = .ok [] :=
  C7_sizes_and_sequence.2.2.2.1 12 [65, 66, 67, 68, 1, 2, 0, 1, 7, 7, 0, 0] 0
    (.item ("ABCD") 1 1 4 [7, 7, 0, 0]) []
    (by simp [itemsGo, from_array, extend, extendGo, readByte, readU16,
      fourccAt, Rec.size])

/-- C1 counterexample: a Container header (`DEVC`, element type 0)
declaring a padded child length of 4 at the very end of an 8-byte
buffer — the declared length reads past the buffer, yet `from_array`
returns a Container with zero children instead of raising: the child
region is a silently clamped (empty) slice. -/
theorem C1_counterexample :
    from_array 2 [68, 69, 86, 67, 0, 1, 0, 4] 0 =
      .ok (.container ("DEVC") 1 4 4 []) ∧
    ([68, 69, 86, 67, 0, 1, 0, 4] : List Nat).length <
      0 + 8 + extend (readByte [68, 69, 86, 67, 0, 1, 0, 4] 5 *
        readU16 [68, 69, 86, 67, 0, 1, 0, 4] 6) := by
  constructor
  · simp [from_array, parseChildren, extend, extendGo, readByte, readU16,
      fourccAt]
  · simp [extend, extendGo, readByte, readU16]

/-- C1 (amended): a truncated 8-byte header, or a non-container record
whose padded `size × repeat` payload would read past the buffer, does
raise a decode error; but a Container whose declared padded child
length would read past the buffer does not — its child region is the
Python slice `data[offset+8 : offset+8+padded_length]`, silently
clamped to the end of the buffer, and the Container is built from
whatever parses out of the clamped region. -/
theorem C1_overrun_behaviour :
    (∀ fuel data offset, data.length < offset + 8 →
      from_array (fuel + 1) data offset =
        .error ("struct.error: unpack_from requires at least 8 bytes")) ∧
    (∀ fuel data offset, ¬ data.length < offset + 8 →
      readByte data (offset + 4) ≠ 0 →
      data.length < offset + 8 +
        extend (readByte data (offset + 5) * readU16 data (offset + 6)) →
      from_array (fuel + 1) data offset =
        .error ("struct.error: unpack_from requires a larger buffer")) ∧
    (∀ fuel data offset, ¬ data.length < offset + 8 →
      readByte data (offset + 4) = 0 →
      from_array (fuel + 1) data offset =
        (parseChildren fuel
            ((data.drop (offset + 8)).take
              (extend (readByte data (offset + 5) * readU16 data (offset + 6)))) 0).map
          (fun children =>
            Rec.container (fourccAt data offset) (readByte data (offset + 5))
              (readU16 data (offset + 6))
              (extend (readByte data (offset + 5) * readU16 data (offset + 6)))
              children)) := by
  refine ⟨?_, ?_, ?_⟩
  · intro fuel data offset h
    simp only [from_array]
    rw [if_pos h]
  · intro fuel data offset h1 h2 h3
    simp only [from_array]
    rw [if_neg h1, if_pos h2, if_pos h3]
  · intro fuel data offset h1 h2
    simp only [from_array]
    rw [if_neg h1]
    have h2' : ¬ readByte data (offset + 4) ≠ 0 := by simp [h2]
    rw [if_neg h2']
    cases hpc : parseChildren fuel
        ((data.drop (offset + 8)).take
          (extend (readByte data (offset + 5) * readU16 data (offset + 6)))) 0 with
    | error e => rfl
    | ok children => rfl

/-- Witness for C1 (amended): a non-container record (type 1, size 1,
repeat 4) whose 4-byte padded payload overruns its 8-byte buffer
raises the payload decode error. -/
theorem C1_witness :
    from_array (0 + 1) [65, 66, 67, 68, 1, 1, 0, 4] 0 =
      .error ("struct.error: unpack_from requires a larger buffer") :=
  C1_overrun_behaviour.2.1 0 [65, 66, 67, 68, 1, 1, 0, 4] 0
    (by simp) (by simp [readByte]) (by simp [extend, extendGo, readByte, readU16])

/-- C8: the stored heading is the raw azimuth when it is non-negative
and azimuth + 360 otherwise, and for every raw azimuth in [-180, 180]
the result lies in [0, 360). -/
theorem C8_cog_normalization (azi : ℚ) (hlo : -180 ≤ azi) (hhi : azi ≤ 180) :
    raw_cog azi = (if 0 ≤ azi then azi else azi + 360) ∧
      0 ≤ raw_cog azi ∧ raw_cog azi < 360 := by
  unfold raw_cog
  by_cases h : 0 ≤ azi
  · simp only [if_pos h]
    refine ⟨by ring, by linarith, by linarith⟩
  · simp only [if_neg h]
    push_neg at h
    refine ⟨by ring, by linarith, by linarith⟩

/-- Witness for C8 at azimuth -90: heading 270, inside [0, 360). -/
theorem C8_witness :
    raw_cog (-90) = (if (0:ℚ) ≤ -90 then (-90:ℚ) else -90 + 360) ∧
      0 ≤ raw_cog (-90) ∧ raw_cog (-90) < 360 :=
  C8_cog_normalization (-90) (by norm_num) (by norm_num)

end GPMD
